import Mathlib

/-!
Verification of the packetimpact testbench connection engine
(`test/packetimpact/testbench/connections.go` of gVisor).

The development shallowly embeds the connection state-tracking code: the
per-layer state machines (`etherState`, `ipv4State`, `ipv6State`, `tcpState`,
`udpState`), the `Connection` orchestration (`incoming`, `match`,
`CreateFrame`, `SendFrame`, `Send`, `recvFrame`, `ExpectFrame`, `Expect`) and
the `TCPIPv4.Handshake` driver.  The `Layer`/`Layers` value model (field
merge, field match, per-layer byte length) and the `seqnum` arithmetic live
in files of the repository that are not part of the sources here; those
definitions are modelled from the specification and are marked as such.

Conventions of the embedding:
* Go pointers-to-scalars (`*uint16`, `*uint32`, `*seqnum.Value`) become
  `Option Nat`: `none` is a nil pointer / unset field.
* A Go method that can return an `error`, or that dereferences a pointer
  that may be nil (a crash), returns `Option _`; `none` covers both the
  error return and the crash, as either way no updated state is produced.
* The prev/next layer linkage of a frame is represented positionally: an
  operation on the layer at index `i` of a frame receives the list of
  layers after index `i` as its "next chain" (the spec itself recommends
  representing the linkage by indices into the frame).
* OS resources (the port-picker file descriptor, the injector and sniffer
  sockets, the RNG seeding the initial sequence number) are external
  collaborators; their outputs (local port, initial sequence number, the
  parsed frames a sniffer delivers) are parameters.
-/

namespace PacketImpact

/-- TCP control flag FIN (`header.TCPFlagFin`). -/
def TCPFlagFin : Nat := 1

/-- TCP control flag SYN (`header.TCPFlagSyn`). -/
def TCPFlagSyn : Nat := 2

/-- TCP control flag ACK (`header.TCPFlagAck`). -/
def TCPFlagAck : Nat := 16

/-- Modelled from the spec: `seqnum.Value.UpdateForward` (package
`pkg/tcpip/seqnum`, not among the sources) advances a 32-bit sequence
number, wrapping at the 32-bit boundary. -/
def updateForward (v n : Nat) : Nat := (v + n) % 2 ^ 32

/-- Modelled from the spec: the `Ether` layer template of `layers.go`
(not among the sources), with each field either set or unset. -/
structure Ether where
  srcAddr : Option Nat := none
  dstAddr : Option Nat := none
  etherType : Option Nat := none
deriving DecidableEq

/-- Modelled from the spec: the `IPv4` layer template of `layers.go`. -/
structure IPv4 where
  srcAddr : Option Nat := none
  dstAddr : Option Nat := none
deriving DecidableEq

/-- Modelled from the spec: the `IPv6` layer template of `layers.go`. -/
structure IPv6 where
  srcAddr : Option Nat := none
  dstAddr : Option Nat := none
deriving DecidableEq

/-- Modelled from the spec: the `TCP` layer template of `layers.go`.
Every field is a pointer in Go (`*uint16`, `*uint32`, `*uint8`); `none`
is a nil pointer ("don't care"). -/
structure TCP where
  srcPort : Option Nat := none
  dstPort : Option Nat := none
  seqNum : Option Nat := none
  ackNum : Option Nat := none
  flags : Option Nat := none
deriving DecidableEq

/-- Modelled from the spec: the `UDP` layer template of `layers.go`. -/
structure UDP where
  srcPort : Option Nat := none
  dstPort : Option Nat := none
deriving DecidableEq

/-- Modelled from the spec: the `Payload` layer of `layers.go`; `bytes`
unset is a nil byte slice. -/
structure Payload where
  bytes : Option (List Nat) := none
deriving DecidableEq

/-- Modelled from the spec: the closed set of `Layer` variants
(spec design note: "reimplement as a closed tagged-variant type"). -/
inductive Layer where
  | ether (e : Ether)
  | ipv4 (i : IPv4)
  | ipv6 (i : IPv6)
  | tcp (t : TCP)
  | udp (u : UDP)
  | payload (p : Payload)
deriving DecidableEq

/-- Modelled from the spec: `Layer.length()` of `layers.go` — the byte
length of one layer: the wire header sizes of Ethernet II, IPv4, IPv6,
TCP and UDP, and the byte count of a payload (0 for a nil byte slice). -/
def Layer.length : Layer → Nat
  | .ether _ => 14
  | .ipv4 _ => 20
  | .ipv6 _ => 40
  | .tcp _ => 20
  | .udp _ => 8
  | .payload p => (p.bytes.getD []).length

/-- Byte length of a chain of nested layers (the `next()` chain that the
TCP `sent`/`received` loops walk). -/
def payloadLen (ls : List Layer) : Nat := (ls.map Layer.length).sum

/-- Modelled from the spec: the per-field merge rule — an override field
that is set wins, an unset override field leaves the base value. -/
def optMerge (base ov : Option Nat) : Option Nat :=
  match ov with
  | some v => some v
  | none => base

/-- Modelled from the spec: per-field merge for payload bytes. -/
def optMergeBytes (base ov : Option (List Nat)) : Option (List Nat) :=
  match ov with
  | some v => some v
  | none => base

/-- Modelled from the spec: `merge` on two `Ether` layers. -/
def Ether.merge (base ov : Ether) : Ether :=
  { srcAddr := optMerge base.srcAddr ov.srcAddr
    dstAddr := optMerge base.dstAddr ov.dstAddr
    etherType := optMerge base.etherType ov.etherType }

/-- Modelled from the spec: `merge` on two `IPv4` layers. -/
def IPv4.merge (base ov : IPv4) : IPv4 :=
  { srcAddr := optMerge base.srcAddr ov.srcAddr
    dstAddr := optMerge base.dstAddr ov.dstAddr }

/-- Modelled from the spec: `merge` on two `IPv6` layers. -/
def IPv6.merge (base ov : IPv6) : IPv6 :=
  { srcAddr := optMerge base.srcAddr ov.srcAddr
    dstAddr := optMerge base.dstAddr ov.dstAddr }

/-- Modelled from the spec: `merge` on two `TCP` layers. -/
def TCP.merge (base ov : TCP) : TCP :=
  { srcPort := optMerge base.srcPort ov.srcPort
    dstPort := optMerge base.dstPort ov.dstPort
    seqNum := optMerge base.seqNum ov.seqNum
    ackNum := optMerge base.ackNum ov.ackNum
    flags := optMerge base.flags ov.flags }

/-- Modelled from the spec: `merge` on two `UDP` layers. -/
def UDP.merge (base ov : UDP) : UDP :=
  { srcPort := optMerge base.srcPort ov.srcPort
    dstPort := optMerge base.dstPort ov.dstPort }

/-- Modelled from the spec: `merge` on two `Payload` layers. -/
def Payload.merge (base ov : Payload) : Payload :=
  { bytes := optMergeBytes base.bytes ov.bytes }

/-- Modelled from the spec: `Layer.merge` of `layers.go` — merge fails
(reporting a conflict) only if the two layers are of different concrete
types; otherwise set override fields overwrite base fields. -/
def Layer.merge : Layer → Layer → Option Layer
  | .ether b, .ether o => some (.ether (Ether.merge b o))
  | .ipv4 b, .ipv4 o => some (.ipv4 (IPv4.merge b o))
  | .ipv6 b, .ipv6 o => some (.ipv6 (IPv6.merge b o))
  | .tcp b, .tcp o => some (.tcp (TCP.merge b o))
  | .udp b, .udp o => some (.udp (UDP.merge b o))
  | .payload b, .payload o => some (.payload (Payload.merge b o))
  | _, _ => none

/-- Modelled from the spec: one-field match — a set expected field must
equal the actual field, an unset expected field is ignored. -/
def optMatch (expected actual : Option Nat) : Bool :=
  match expected with
  | some v => actual == some v
  | none => true

/-- Modelled from the spec: one-field match for payload bytes. -/
def optMatchBytes (expected actual : Option (List Nat)) : Bool :=
  match expected with
  | some v => actual == some v
  | none => true

/-- Modelled from the spec: `Layer.match` of `layers.go` — layers of
different concrete types never match; otherwise every set field of the
expectation must be equal in the actual layer. -/
def Layer.matches : Layer → Layer → Bool
  | .ether e, .ether a =>
      optMatch e.srcAddr a.srcAddr && optMatch e.dstAddr a.dstAddr &&
      optMatch e.etherType a.etherType
  | .ipv4 e, .ipv4 a => optMatch e.srcAddr a.srcAddr && optMatch e.dstAddr a.dstAddr
  | .ipv6 e, .ipv6 a => optMatch e.srcAddr a.srcAddr && optMatch e.dstAddr a.dstAddr
  | .tcp e, .tcp a =>
      optMatch e.srcPort a.srcPort && optMatch e.dstPort a.dstPort &&
      optMatch e.seqNum a.seqNum && optMatch e.ackNum a.ackNum &&
      optMatch e.flags a.flags
  | .udp e, .udp a => optMatch e.srcPort a.srcPort && optMatch e.dstPort a.dstPort
  | .payload e, .payload a => optMatchBytes e.bytes a.bytes
  | _, _ => false

/-- Modelled from the spec: `Layers.match` of `layers.go` — every position
where the expectation has a layer must match the captured layer at the same
index; a captured frame with more layers than the expectation still matches,
one with fewer does not. -/
def matchLayers : List Layer → List Layer → Bool
  | [], _ => true
  | _ :: _, [] => false
  | e :: es, a :: as => Layer.matches e a && matchLayers es as

/-- Modelled from the spec: `Layers.merge` of `layers.go` — the override
frame is merged into the base index-wise (a nil override entry leaves the
base layer untouched, a type mismatch fails the whole merge); override
layers beyond the base frame are appended (this is what lets `ExpectData`
constrain a payload layer beyond the connection's layer states). -/
def mergeLayers : List Layer → List (Option Layer) → Option (List Layer)
  | base, [] => some base
  | [], ov => some (ov.filterMap id)
  | b :: bs, none :: ov => (mergeLayers bs ov).map (b :: ·)
  | b :: bs, some o :: ov =>
      match Layer.merge b o with
      | none => none
      | some m => (mergeLayers bs ov).map (m :: ·)

/-- The state of the Ethernet layer of a connection (`etherState`);
`tin` is the Go field `in` (a Lean keyword). -/
structure etherState where
  out : Ether
  tin : Ether
deriving DecidableEq

/-- The state of the IPv4 layer of a connection (`ipv4State`). -/
structure ipv4State where
  out : IPv4
  tin : IPv4
deriving DecidableEq

/-- The state of the IPv6 layer of a connection (`ipv6State`). -/
structure ipv6State where
  out : IPv6
  tin : IPv6
deriving DecidableEq

/-- The state of the UDP layer of a connection (`udpState`); the
port-picker file descriptor, an OS resource, is omitted. -/
structure udpState where
  out : UDP
  tin : UDP
deriving DecidableEq

/-- The state of the TCP layer of a connection (`tcpState`); the
port-picker file descriptor, an OS resource, is omitted.  `localSeqNum`
and `remoteSeqNum` are `*seqnum.Value` in Go: `none` is a nil pointer. -/
structure tcpState where
  out : TCP
  tin : TCP
  localSeqNum : Option Nat
  remoteSeqNum : Option Nat
  synAck : Option TCP
  finSent : Bool
deriving DecidableEq

/-- `newTCPState`: the out template is `TCP{SrcPort: &localPort}` merged
with the caller's `out`, the in template is `TCP{DstPort: &localPort}`
merged with the caller's `in`; `localSeqNum` is set at creation to
`rand.Uint32()` (the parameter `isn`), `remoteSeqNum` is nil and `finSent`
is false.  The port allocation (`pickPort`) is an OS collaborator whose
result is the parameter `localPort`; merging two `TCP` layers never fails,
so the error paths of the Go function do not arise here. -/
def newTCPState (localPort isn : Nat) (out tin : TCP) : tcpState :=
  { out := TCP.merge { srcPort := some localPort } out
    tin := TCP.merge { dstPort := some localPort } tin
    localSeqNum := some isn
    remoteSeqNum := none
    synAck := none
    finSent := false }

/-- `tcpState.outgoing`: a copy of the out template with `SeqNum` set from
`localSeqNum` and `AckNum` set from `remoteSeqNum` when those are known. -/
def tcpState.outgoing (s : tcpState) : Layer :=
  let o := s.out
  let o := match s.localSeqNum with
    | some v => { o with seqNum := some v }
    | none => o
  let o := match s.remoteSeqNum with
    | some v => { o with ackNum := some v }
    | none => o
  Layer.tcp o

/-- `tcpState.incoming`: the expected layer for a received layer — a copy
of the in template with `SeqNum` set from `remoteSeqNum` when known, and
`AckNum` overwritten with `localSeqNum` only when `localSeqNum` is known
and the received layer's ACK flag is set.  A received layer that is not
TCP yields `none` (Go returns nil); when `localSeqNum` is known the Go
code dereferences `tcpReceived.Flags`, so a nil `Flags` yields `none`
(a crash in Go). -/
def tcpState.incoming (s : tcpState) (received : Layer) : Option Layer :=
  match received with
  | Layer.tcp tcpReceived =>
    let newIn := s.tin
    let newIn := match s.remoteSeqNum with
      | some v => { newIn with seqNum := some v }
      | none => newIn
    match s.localSeqNum with
    | none => some (Layer.tcp newIn)
    | some v =>
      match tcpReceived.flags with
      | none => none
      | some f =>
        if f &&& TCPFlagAck != 0 then some (Layer.tcp { newIn with ackNum := some v })
        else some (Layer.tcp newIn)
  | _ => none

/-- One `s.localSeqNum.UpdateForward(n)` call: fails (`none`, a nil
dereference in Go) when `localSeqNum` is nil. -/
def advanceSeq (s : tcpState) (n : Nat) : Option tcpState :=
  match s.localSeqNum with
  | none => none
  | some v => some { s with localSeqNum := some (updateForward v n) }

/-- The `for current := tcp.next(); ...` loop of `tcpState.sent`: advance
`localSeqNum` by the byte length of every nested layer, one
`UpdateForward` call per layer. -/
def advancePayload : tcpState → List Layer → Option tcpState
  | s, [] => some s
  | s, l :: ls =>
      match advanceSeq s l.length with
      | none => none
      | some s2 => advancePayload s2 ls

/-- `tcpState.sent`: a non-TCP layer is an error; if FIN was not yet sent,
`localSeqNum` advances by the byte length of every nested layer; then
`localSeqNum` advances by 1 if `Flags` is set and has SYN or FIN; finally
`finSent` is set when the FIN bit is on — this last step dereferences
`tcp.Flags` unconditionally, so a nil `Flags` yields `none` (a crash in
Go).  `nested` is the chain of layers after the TCP layer in the sent
frame. -/
def tcpState.sent (s : tcpState) (sent : Layer) (nested : List Layer) : Option tcpState :=
  match sent with
  | Layer.tcp tcp =>
    match (if s.finSent then some s else advancePayload s nested) with
    | none => none
    | some s1 =>
      match (match tcp.flags with
             | some f => if f &&& (TCPFlagSyn ||| TCPFlagFin) != 0 then advanceSeq s1 1 else some s1
             | none => some s1) with
      | none => none
      | some s2 =>
        match tcp.flags with
        | none => none
        | some f => some (if f &&& TCPFlagFin != 0 then { s2 with finSent := true } else s2)
  | _ => none

/-- The `for current := tcp.next(); ...` loop of `tcpState.received`:
fold `UpdateForward` over the nested layers' byte lengths. -/
def advanceBy (v : Nat) (ls : List Layer) : Nat :=
  ls.foldl (fun a l => updateForward a l.length) v

/-- `tcpState.received`: a non-TCP layer is an error; `remoteSeqNum` is set
to the received `SeqNum` (a nil `SeqNum` or nil `Flags` is dereferenced in
Go, hence `none`), advanced by 1 when SYN or FIN is set, then advanced by
the byte length of every nested layer. -/
def tcpState.received (s : tcpState) (l : Layer) (nested : List Layer) : Option tcpState :=
  match l with
  | Layer.tcp tcp =>
    match tcp.seqNum with
    | none => none
    | some sn =>
      match tcp.flags with
      | none => none
      | some f =>
        let r1 := if f &&& (TCPFlagSyn ||| TCPFlagFin) != 0 then updateForward sn 1 else sn
        some { s with remoteSeqNum := some (advanceBy r1 nested) }
  | _ => none

/-- The closed set of `layerState` variants of a `Connection`
(the Go `layerState` interface has exactly these five implementations). -/
inductive layerState where
  | ether (s : etherState)
  | ipv4 (s : ipv4State)
  | ipv6 (s : ipv6State)
  | tcp (s : tcpState)
  | udp (s : udpState)
deriving DecidableEq

/-- `layerState.outgoing` dispatch: the Ethernet, IPv4, IPv6 and UDP
states return a copy of their out template; the TCP state substitutes the
live sequence numbers. -/
def layerState.outgoingL : layerState → Layer
  | .ether s => Layer.ether s.out
  | .ipv4 s => Layer.ipv4 s.out
  | .ipv6 s => Layer.ipv6 s.out
  | .tcp s => tcpState.outgoing s
  | .udp s => Layer.udp s.out

/-- `layerState.incoming` dispatch: the Ethernet, IPv4, IPv6 and UDP
states return a copy of their in template regardless of the received
layer; the TCP state builds the received-dependent expectation. -/
def layerState.incomingL : layerState → Layer → Option Layer
  | .ether s, _ => some (Layer.ether s.tin)
  | .ipv4 s, _ => some (Layer.ipv4 s.tin)
  | .ipv6 s, _ => some (Layer.ipv6 s.tin)
  | .tcp s, received => tcpState.incoming s received
  | .udp s, _ => some (Layer.udp s.tin)

/-- `layerState.sent` dispatch: only the TCP state updates itself;
`nested` is the chain of layers after the sent layer in the frame. -/
def layerState.sentL : layerState → Layer → List Layer → Option layerState
  | .ether s, _, _ => some (.ether s)
  | .ipv4 s, _, _ => some (.ipv4 s)
  | .ipv6 s, _, _ => some (.ipv6 s)
  | .tcp s, l, nested => (tcpState.sent s l nested).map .tcp
  | .udp s, _, _ => some (.udp s)

/-- `layerState.received` dispatch: only the TCP state updates itself. -/
def layerState.receivedL : layerState → Layer → List Layer → Option layerState
  | .ether s, _, _ => some (.ether s)
  | .ipv4 s, _, _ => some (.ipv4 s)
  | .ipv6 s, _, _ => some (.ipv6 s)
  | .tcp s, l, nested => (tcpState.received s l nested).map .tcp
  | .udp s, _, _ => some (.udp s)

/-- `Connection`: the ordered list of layer states.  The injector, the
sniffer and the `testing.T` handle are external collaborators: frames the
sniffer delivers are passed as explicit arguments below, and a `t.Fatalf`
(or a crash) is an operation returning `none`. -/
structure Connection where
  layerStates : List layerState
deriving DecidableEq

/-- The loop body of `Connection.incoming`: `s.incoming(received[i])` for
each layer state, index-aligned; any nil expectation aborts with nil. -/
def incomingAux : List layerState → List Layer → Option (List Layer)
  | [], _ => some []
  | _ :: _, [] => none
  | s :: ss, l :: ls =>
      match s.incomingL l with
      | none => none
      | some x => (incomingAux ss ls).map (x :: ·)

/-- `Connection.incoming`: the default incoming frame against which to
match; nil when the received frame has fewer layers than the
connection has layer states. -/
def Connection.incoming (conn : Connection) (received : List Layer) : Option (List Layer) :=
  if received.length < conn.layerStates.length then none
  else incomingAux conn.layerStates received

/-- `Connection.match` (named `matchFrame` here because `match` is a Lean
keyword): compute the expected incoming frame, merge the caller's override
into it, and frame-match the result against the received frame.  A nil
expectation or a failing merge is "no match", never an error: the function
is total with a `Bool` result. -/
def Connection.matchFrame (conn : Connection) (override : List (Option Layer))
    (received : List Layer) : Bool :=
  match conn.incoming received with
  | none => false
  | some toMatch =>
    match mergeLayers toMatch override with
    | none => false
    | some merged => matchLayers merged received

/-- Merge a layer into the last element of `layersToSend`
(`layersToSend[len(layersToSend)-1].merge(layer)`); on an empty list the
Go index expression panics, and a merge failure is `conn.t.Fatalf`
— both `none`. -/
def mergeLast : List Layer → Layer → Option (List Layer)
  | [], _ => none
  | [l], layer => (Layer.merge l layer).map ([·])
  | l :: l2 :: ls, layer => (mergeLast (l2 :: ls) layer).map (l :: ·)

/-- `Connection.CreateFrame`: gather every layer state's outgoing layer,
merge the caller's layer into the innermost one (fatal on failure), then
append the additional layers. -/
def Connection.CreateFrame (conn : Connection) (layer : Layer)
    (additionalLayers : List Layer) : Option (List Layer) :=
  let layersToSend := conn.layerStates.map layerState.outgoingL
  match mergeLast layersToSend layer with
  | none => none
  | some merged => some (merged ++ additionalLayers)

/-- The loop of `Connection.SendFrame`: `s.sent(sentFrame[i])` for every
layer state, index-aligned, the chain of layers after index `i` standing
for the sent layer's `next()` linkage; a frame shorter than the layer
states indexes out of range in Go (`none`), and any `sent` error is
`conn.t.Fatalf` (`none`). -/
def sentStates : List layerState → List Layer → Option (List layerState)
  | [], _ => some []
  | _ :: _, [] => none
  | s :: ss, l :: ls =>
      match s.sentL l ls with
      | none => none
      | some s2 => (sentStates ss ls).map (s2 :: ·)

/-- `Connection.SendFrame`.  Modelled from the spec for the wire step: the
frame is serialized (`ToBytes`), injected, and the sent bytes re-parsed;
by the spec's round-trip property the re-parsed frame agrees with the
built frame on every field the state updates read, so the parsed
`sentFrame` is the frame itself.  The state of each layer is then updated
with the corresponding sent layer. -/
def Connection.SendFrame (conn : Connection) (frame : List Layer) : Option Connection :=
  (sentStates conn.layerStates frame).map Connection.mk

/-- `Connection.Send`: `CreateFrame` then `SendFrame`. -/
def Connection.Send (conn : Connection) (layer : Layer)
    (additionalLayers : List Layer) : Option Connection :=
  match conn.CreateFrame layer additionalLayers with
  | none => none
  | some frame => conn.SendFrame frame

/-- `Connection.recvFrame`: nil on a non-positive timeout, otherwise the
sniffer's answer.  Modelled from the spec for the parse step: the sniffer
delivers raw bytes which are parsed into layers; the argument
`recvResult` stands for the already-parsed result of `Recv` (nil when
nothing arrived in time). -/
def Connection.recvFrame (timeout : Int) (recvResult : Option (List Layer)) :
    Option (List Layer) :=
  if timeout ≤ 0 then none else recvResult

/-- A `layersError` diagnostic record: the captured layers and the
expected layers they failed to match (`conn.incoming(gotLayers)`). -/
structure LayersDiff where
  got : List Layer
  want : Option (List Layer)
deriving DecidableEq

/-- The diagnostic record `ExpectFrame` accumulates for one
non-matching captured frame. -/
def mkDiff (conn : Connection) (got : List Layer) : LayersDiff :=
  { got := got, want := conn.incoming got }

/-- Outcome of `Connection.ExpectFrame`: a timeout carrying the
accumulated non-matching diffs, a matched frame together with the updated
connection, or a fatal `t.Fatal` (a `received` update that failed). -/
inductive ExpectResult where
  | timeout (errs : List LayersDiff)
  | matched (frame : List Layer) (conn : Connection)
  | fatal
deriving DecidableEq

/-- The loop of `ExpectFrame` that runs `s.received(gotLayers[i])` on
every layer state after a match, index-aligned. -/
def receivedStates : List layerState → List Layer → Option (List layerState)
  | [], _ => some []
  | _ :: _, [] => none
  | s :: ss, l :: ls =>
      match s.receivedL l ls with
      | none => none
      | some s2 => (receivedStates ss ls).map (s2 :: ·)

/-- The connection after `received` ran on every layer state. -/
def Connection.updateReceivedStates (conn : Connection) (got : List Layer) :
    Option Connection :=
  (receivedStates conn.layerStates got).map Connection.mk

/-- The retry loop of `Connection.ExpectFrame`.  Time is explicit:
`remaining` is `time.Until(deadline)` at the top of the iteration, and the
sniffer is a trace of answers to successive `Recv` calls, each entry
carrying the time the call consumed and the parsed frame it returned (or
`none` for an in-sniffer timeout).  When the remaining time is not
positive, or the sniffer returns nil, the loop ends with the accumulated
diffs; a matching frame updates every layer state and is returned; a
non-matching frame appends its diff and the loop continues. -/
def expectLoop (conn : Connection) (layers : List (Option Layer)) :
    List LayersDiff → Int → List (Int × Option (List Layer)) → ExpectResult
  | errs, remaining, trace =>
    if remaining ≤ 0 then ExpectResult.timeout errs
    else
      match trace with
      | [] => ExpectResult.timeout errs
      | (d, r) :: rest =>
        match Connection.recvFrame remaining r with
        | none => ExpectResult.timeout errs
        | some got =>
          if conn.matchFrame layers got then
            match conn.updateReceivedStates got with
            | some conn2 => ExpectResult.matched got conn2
            | none => ExpectResult.fatal
          else
            expectLoop conn layers (errs ++ [mkDiff conn got]) (remaining - d) rest

/-- `Connection.ExpectFrame`: poll the sniffer against a deadline,
starting with no accumulated diffs. -/
def Connection.ExpectFrame (conn : Connection) (layers : List (Option Layer))
    (timeout : Int) (trace : List (Int × Option (List Layer))) : ExpectResult :=
  expectLoop conn layers [] timeout trace

/-- `Connection.Expect`: build an expectation frame constraining only the
innermost layer (`layers[len(layers)-1] = layer`, nil elsewhere; on a
connection with no layer states the Go index panics), run `ExpectFrame`,
and extract the innermost matched layer. -/
def Connection.Expect (conn : Connection) (layer : Layer) (timeout : Int)
    (trace : List (Int × Option (List Layer))) : Option (Layer × Connection) :=
  if conn.layerStates.length = 0 then none
  else
    let layers := List.replicate (conn.layerStates.length - 1) (Option.none) ++ [some layer]
    match conn.ExpectFrame layers timeout trace with
    | ExpectResult.matched gotFrame conn2 =>
      match gotFrame.get? (conn.layerStates.length - 1) with
      | some l => some (l, conn2)
      | none => none
    | _ => none

/-- Store the captured SYN-ACK in the final layer state
(`conn.layerStates[len(conn.layerStates)-1].(*tcpState).synAck = synAck`);
the type assertion panics when the final state is not a TCP state. -/
def setSynAckStates : List layerState → TCP → Option (List layerState)
  | [], _ => none
  | [layerState.tcp st], sa => some [layerState.tcp { st with synAck := some sa }]
  | [_], _ => none
  | s :: s2 :: ss, sa => (setSynAckStates (s2 :: ss) sa).map (s :: ·)

/-- The connection with the captured SYN-ACK stored in its TCP state. -/
def Connection.setSynAck (conn : Connection) (sa : TCP) : Option Connection :=
  (setSynAckStates conn.layerStates sa).map Connection.mk

/-- `TCPIPv4.state`: the final layer state as a TCP state (a fatal
type-assertion failure is `none`). -/
def lastTCP : List layerState → Option tcpState
  | [] => none
  | [layerState.tcp st] => some st
  | [_] => none
  | _ :: s2 :: ss => lastTCP (s2 :: ss)

/-- The TCP state of a connection (`TCPIPv4.state()`). -/
def Connection.lastTCPState (conn : Connection) : Option tcpState :=
  lastTCP conn.layerStates

/-- `TCPIPv4.Handshake`: send a frame with only SYN set; expect, within 1
second (1000 time units here), a frame with SYN and ACK set; store the
captured layer as `synAck` (the Go code type-asserts it to `*TCP`); send a
frame with only ACK set.  A failing `Expect` is `conn.t.Fatalf` — `none`.
The sniffer trace drives the `Expect` step. -/
def TCPIPv4.Handshake (conn : Connection)
    (trace : List (Int × Option (List Layer))) : Option Connection :=
  match conn.Send (Layer.tcp { flags := some TCPFlagSyn }) [] with
  | none => none
  | some c1 =>
    match c1.Expect (Layer.tcp { flags := some (TCPFlagSyn ||| TCPFlagAck) }) 1000 trace with
    | none => none
    | some (synAckLayer, c2) =>
      match synAckLayer with
      | Layer.tcp synAckTCP =>
        match c2.setSynAck synAckTCP with
        | none => none
        | some c3 => c3.Send (Layer.tcp { flags := some TCPFlagAck }) []
      | _ => none

/-! ### Arithmetic helpers for the sequence-number folds -/

theorem advancePayload_eq (nested : List Layer) : ∀ (s : tcpState) (v : Nat),
    v < 2 ^ 32 → s.localSeqNum = some v →
    advancePayload s nested = some { s with localSeqNum := some ((v + payloadLen nested) % 2 ^ 32) } := by
  induction nested with
  | nil =>
    intro s v hv32 hv
    obtain ⟨o, ti, lsq, rsq, sa, fin⟩ := s
    simp only [advancePayload, payloadLen, List.map_nil, List.sum_nil, Nat.add_zero] at *
    subst hv
    simp only [Option.some.injEq]
    congr 2
    omega
  | cons l ls ih =>
    intro s v hv32 hv
    obtain ⟨o, ti, lsq, rsq, sa, fin⟩ := s
    simp only at hv
    subst hv
    have hlt : (v + l.length) % 2 ^ 32 < 2 ^ 32 := Nat.mod_lt _ (by norm_num)
    simp only [advancePayload, advanceSeq, updateForward]
    rw [ih _ _ hlt rfl]
    simp only [payloadLen, List.map_cons, List.sum_cons]
    congr 2
    rw [Nat.mod_add_mod]
    ring_nf

theorem advancePayload_some (nested : List Layer) : ∀ (s : tcpState) (v : Nat),
    s.localSeqNum = some v →
    ∃ w, advancePayload s nested = some { s with localSeqNum := some w } := by
  induction nested with
  | nil =>
    intro s v hv
    obtain ⟨o, ti, lsq, rsq, sa, fin⟩ := s
    simp only at hv
    subst hv
    exact ⟨v, rfl⟩
  | cons l ls ih =>
    intro s v hv
    obtain ⟨o, ti, lsq, rsq, sa, fin⟩ := s
    simp only at hv
    subst hv
    simp only [advancePayload, advanceSeq]
    exact ih _ (updateForward v l.length) rfl

theorem advanceBy_eq (ls : List Layer) : ∀ v : Nat, v < 2 ^ 32 →
    advanceBy v ls = (v + payloadLen ls) % 2 ^ 32 := by
  induction ls with
  | nil =>
    intro v hv32
    simp only [advanceBy, List.foldl_nil, payloadLen, List.map_nil, List.sum_nil]
    omega
  | cons l ls ih =>
    intro v hv32
    have hlt : (v + l.length) % 2 ^ 32 < 2 ^ 32 := Nat.mod_lt _ (by norm_num)
    simp only [advanceBy, List.foldl_cons] at *
    rw [show updateForward v l.length = (v + l.length) % 2 ^ 32 from rfl, ih _ hlt]
    simp only [payloadLen, List.map_cons, List.sum_cons]
    rw [Nat.mod_add_mod]
    ring_nf

/-- What `tcpState.sent` does to `localSeqNum`, in closed form. -/
theorem sent_localSeqNum (s : tcpState) (t : TCP) (nested : List Layer) (f v : Nat)
    (hf : t.flags = some f) (hv : s.localSeqNum = some v) (hv32 : v < 2 ^ 32) :
    (tcpState.sent s (Layer.tcp t) nested).map tcpState.localSeqNum
      = some (some ((v + (if s.finSent then 0 else payloadLen nested)
          + (if f &&& (TCPFlagSyn ||| TCPFlagFin) != 0 then 1 else 0)) % 2 ^ 32)) := by
  obtain ⟨o, ti, lsq, rsq, sa, fin⟩ := s
  simp only at hv
  subst hv
  have hplt : (v + payloadLen nested) % 2 ^ 32 < 2 ^ 32 := Nat.mod_lt _ (by norm_num)
  cases fin with
  | true =>
    simp only [tcpState.sent, hf, if_true, advanceSeq]
    by_cases hb : (f &&& (TCPFlagSyn ||| TCPFlagFin) != 0) = true <;>
      by_cases hc : (f &&& TCPFlagFin != 0) = true <;>
        simp [hb, hc, updateForward] <;> omega
  | false =>
    simp only [tcpState.sent, hf, if_false]
    rw [advancePayload_eq nested ⟨o, ti, some v, rsq, sa, false⟩ v hv32 rfl]
    simp only [advanceSeq]
    by_cases hb : (f &&& (TCPFlagSyn ||| TCPFlagFin) != 0) = true <;>
      by_cases hc : (f &&& TCPFlagFin != 0) = true <;>
        simp [hb, hc, updateForward, Nat.mod_add_mod]

/-- What `tcpState.sent` does to `finSent`, in closed form. -/
theorem sent_finSent (s : tcpState) (t : TCP) (nested : List Layer) (f v : Nat)
    (hf : t.flags = some f) (hv : s.localSeqNum = some v) :
    (tcpState.sent s (Layer.tcp t) nested).map tcpState.finSent
      = some (s.finSent || (f &&& TCPFlagFin != 0)) := by
  obtain ⟨o, ti, lsq, rsq, sa, fin⟩ := s
  simp only at hv
  subst hv
  cases fin with
  | true =>
    simp only [tcpState.sent, hf, if_true, advanceSeq]
    by_cases hb : (f &&& (TCPFlagSyn ||| TCPFlagFin) != 0) = true <;>
      by_cases hc : (f &&& TCPFlagFin != 0) = true <;>
        simp [hb, hc]
  | false =>
    simp only [tcpState.sent, hf, if_false]
    obtain ⟨w, hw⟩ := advancePayload_some nested ⟨o, ti, some v, rsq, sa, false⟩ v rfl
    rw [hw]
    simp only [advanceSeq]
    by_cases hb : (f &&& (TCPFlagSyn ||| TCPFlagFin) != 0) = true <;>
      by_cases hc : (f &&& TCPFlagFin != 0) = true <;>
        simp [hb, hc]

/-- What `tcpState.received` does to `remoteSeqNum`, in closed form. -/
theorem received_remoteSeqNum (s : tcpState) (t : TCP) (nested : List Layer) (f sn : Nat)
    (hsn : t.seqNum = some sn) (hf : t.flags = some f) (hsn32 : sn < 2 ^ 32) :
    (tcpState.received s (Layer.tcp t) nested).map tcpState.remoteSeqNum
      = some (some ((sn + (if f &&& (TCPFlagSyn ||| TCPFlagFin) != 0 then 1 else 0)
          + payloadLen nested) % 2 ^ 32)) := by
  simp only [tcpState.received, hsn, hf]
  by_cases hb : (f &&& (TCPFlagSyn ||| TCPFlagFin) != 0) = true
  · have h1 : updateForward sn 1 < 2 ^ 32 := by
      unfold updateForward
      exact Nat.mod_lt _ (by norm_num)
    rw [if_pos hb, if_pos hb, advanceBy_eq nested _ h1]
    simp [updateForward, Nat.mod_add_mod]
  · rw [if_neg hb, if_neg hb, advanceBy_eq nested _ hsn32]
    simp

/-- C1: for every TCP layer passed to `tcpState.sent` (with its `Flags`
set — a nil `Flags` crashes, see C10 — and `localSeqNum` established, a
32-bit value): when `finSent` is false, `localSeqNum` advances mod 2^32 by
the byte length of every nested layer; independently of `finSent` it
advances by exactly 1 more when SYN or FIN is set (so a FIN-flagged send
after `finSent` still advances by 1); and `finSent` becomes true iff it
already was true or the FIN bit is set. -/
theorem c1_tcp_sent_spec (s : tcpState) (t : TCP) (nested : List Layer) (f v : Nat)
    (hf : t.flags = some f) (hv : s.localSeqNum = some v) (hv32 : v < 2 ^ 32) :
    (tcpState.sent s (Layer.tcp t) nested).map tcpState.localSeqNum
      = some (some ((v + (if s.finSent then 0 else payloadLen nested)
          + (if f &&& (TCPFlagSyn ||| TCPFlagFin) != 0 then 1 else 0)) % 2 ^ 32))
    ∧ (tcpState.sent s (Layer.tcp t) nested).map tcpState.finSent
      = some (s.finSent || (f &&& TCPFlagFin != 0)) :=
  ⟨sent_localSeqNum s t nested f v hf hv hv32, sent_finSent s t nested f v hf hv⟩

/-- Witness for C1: a FIN-flagged 3-byte send from sequence number 100
with `finSent` still false advances `localSeqNum` to 104 and sets
`finSent`; the same send with `finSent` already true advances to 101
(payload not counted, FIN still counted) and keeps `finSent`. -/
theorem c1_witness :
    (tcpState.sent ⟨{}, {}, some 100, none, none, false⟩
        (Layer.tcp { flags := some 1 }) [Layer.payload ⟨some [1, 2, 3]⟩]).map tcpState.localSeqNum
      = some (some 104)
    ∧ (tcpState.sent ⟨{}, {}, some 100, none, none, true⟩
        (Layer.tcp { flags := some 1 }) [Layer.payload ⟨some [1, 2, 3]⟩]).map tcpState.localSeqNum
      = some (some 101)
    ∧ (tcpState.sent ⟨{}, {}, some 100, none, none, false⟩
        (Layer.tcp { flags := some 1 }) [Layer.payload ⟨some [1, 2, 3]⟩]).map tcpState.finSent
      = some true := by
  have h1 := c1_tcp_sent_spec ⟨{}, {}, some 100, none, none, false⟩ { flags := some 1 }
    [Layer.payload ⟨some [1, 2, 3]⟩] 1 100 rfl rfl (by norm_num)
  have h2 := c1_tcp_sent_spec ⟨{}, {}, some 100, none, none, true⟩ { flags := some 1 }
    [Layer.payload ⟨some [1, 2, 3]⟩] 1 100 rfl rfl (by norm_num)
  exact ⟨h1.1.trans (by decide), h2.1.trans (by decide), h1.2.trans (by decide)⟩

/-- C7: every sequence-number advance in `tcpState.received` and
`tcpState.sent` is modular 32-bit arithmetic — the per-layer
`UpdateForward` folds compute `(v + n) % 2^32` for the total advance `n`
(SYN/FIN bump plus nested byte length), so advances wrap at the 32-bit
boundary. -/
theorem c7_seqnum_modular (s : tcpState) (t : TCP) (nested : List Layer) (f v sn : Nat) :
    (t.seqNum = some sn → t.flags = some f → sn < 2 ^ 32 →
      (tcpState.received s (Layer.tcp t) nested).map tcpState.remoteSeqNum
        = some (some ((sn + (if f &&& (TCPFlagSyn ||| TCPFlagFin) != 0 then 1 else 0)
            + payloadLen nested) % 2 ^ 32)))
    ∧ (t.flags = some f → s.localSeqNum = some v → v < 2 ^ 32 →
      (tcpState.sent s (Layer.tcp t) nested).map tcpState.localSeqNum
        = some (some ((v + (if s.finSent then 0 else payloadLen nested)
            + (if f &&& (TCPFlagSyn ||| TCPFlagFin) != 0 then 1 else 0)) % 2 ^ 32))) :=
  ⟨fun hsn hf hsn32 => received_remoteSeqNum s t nested f sn hsn hf hsn32,
   fun hf hv hv32 => sent_localSeqNum s t nested f v hf hv hv32⟩

/-- Witness for C7: receiving a SYN segment with sequence number
`0xFFFFFFFE` followed by a 2-byte payload advances the remote sequence
number by 3 across the 32-bit boundary, yielding 1. -/
theorem c7_witness :
    (tcpState.received ⟨{}, {}, some 100, none, none, false⟩
        (Layer.tcp { seqNum := some 4294967294, flags := some 2 })
        [Layer.payload ⟨some [7, 8]⟩]).map tcpState.remoteSeqNum
      = some (some 1) := by
  have h := (c7_seqnum_modular ⟨{}, {}, some 100, none, none, false⟩
    { seqNum := some 4294967294, flags := some 2 } [Layer.payload ⟨some [7, 8]⟩]
    2 100 4294967294).1 rfl rfl (by norm_num)
  exact h.trans (by decide)

/-- C10: `tcpState.sent` is total only when the sent layer's `Flags` field
is set: the SYN/FIN advance is guarded by a nil check, but the `finSent`
update dereferences `Flags` unconditionally, so with `Flags` unset the
operation crashes (`none`) for every state and payload; with `Flags` set
(as any layer parsed from actually-sent wire bytes has) and `localSeqNum`
established, the operation always produces a state. -/
theorem c10_sent_flags_precondition (s : tcpState) (t : TCP) (nested : List Layer) (f v : Nat) :
    (t.flags = none → tcpState.sent s (Layer.tcp t) nested = none)
    ∧ (t.flags = some f → s.localSeqNum = some v →
        (tcpState.sent s (Layer.tcp t) nested).isSome = true) := by
  constructor
  · intro hf
    obtain ⟨o, ti, lsq, rsq, sa, fin⟩ := s
    cases fin with
    | true => simp [tcpState.sent, hf]
    | false =>
      simp only [tcpState.sent, hf, if_false]
      cases h : advancePayload ⟨o, ti, lsq, rsq, sa, false⟩ nested <;> simp
  · intro hf hv
    obtain ⟨o, ti, lsq, rsq, sa, fin⟩ := s
    simp only at hv
    subst hv
    cases fin with
    | true =>
      simp only [tcpState.sent, hf, if_true, advanceSeq]
      by_cases hb : (f &&& (TCPFlagSyn ||| TCPFlagFin) != 0) = true <;> simp [hb]
    | false =>
      simp only [tcpState.sent, hf, if_false]
      obtain ⟨w, hw⟩ := advancePayload_some nested ⟨o, ti, some v, rsq, sa, false⟩ v rfl
      rw [hw]
      simp only [advanceSeq]
      by_cases hb : (f &&& (TCPFlagSyn ||| TCPFlagFin) != 0) = true <;> simp [hb]

/-- Witness for C10: a TCP layer with `Flags` unset crashes `sent` even
with no payload and `finSent` false, while the same call with `Flags` set
to ACK succeeds. -/
theorem c10_witness :
    tcpState.sent ⟨{}, {}, some 100, none, none, false⟩ (Layer.tcp {}) [] = none
    ∧ (tcpState.sent ⟨{}, {}, some 100, none, none, false⟩
        (Layer.tcp { flags := some 16 }) []).isSome = true := by
  have h := c10_sent_flags_precondition ⟨{}, {}, some 100, none, none, false⟩ {} [] 16 100
  have h2 := c10_sent_flags_precondition ⟨{}, {}, some 100, none, none, false⟩
    { flags := some 16 } [] 16 100
  exact ⟨h.1 rfl, h2.2 rfl rfl⟩

/-- The ack-number field of a TCP layer (projection used to state the
ack-number facts about `tcpState.incoming`). -/
def Layer.tcpAckNum : Layer → Option (Option Nat)
  | .tcp t => some t.ackNum
  | _ => none

/-- Counterexample to C6: the claim says the expectation's ack-number is
set iff `localSeqNum` is known and the received ACK flag is set, and is
left unset when ACK is clear.  But `tcpState.incoming` starts from a copy
of the `in` template: with `localSeqNum` unknown (so no overwrite can
happen) and the received flags all clear, a template whose `AckNum` the
caller set to 7 yields an expectation with the ack-number set to 7. -/
theorem c6_counterexample :
    tcpState.incoming ⟨{}, { ackNum := some 7 }, none, none, none, false⟩
        (Layer.tcp { flags := some 0 })
      = some (Layer.tcp { dstPort := none, ackNum := some 7 }) := by decide

/-- C6 (amended): the expected layer built by `tcpState.incoming` has its
ack-number field overwritten with the current `localSeqNum` iff
`localSeqNum` is known and the received layer's ACK control flag is set;
otherwise the ack-number keeps the `in` template's value — in particular
it is left unset (don't-care) whenever the template leaves it unset. -/
theorem c6_amended_incoming_ack (s : tcpState) (t : TCP) (f : Nat) (hf : t.flags = some f) :
    (tcpState.incoming s (Layer.tcp t)).bind Layer.tcpAckNum
      = some (if s.localSeqNum.isSome && (f &&& TCPFlagAck != 0) then s.localSeqNum
              else s.tin.ackNum) := by
  obtain ⟨o, ti, lsq, rsq, sa, fin⟩ := s
  cases lsq with
  | none =>
    cases rsq <;> simp [tcpState.incoming, Layer.tcpAckNum]
  | some v =>
    by_cases hb : (f &&& TCPFlagAck != 0) = true <;>
      cases rsq <;> simp [tcpState.incoming, Layer.tcpAckNum, hf, hb]

/-- Witness for C6 (amended): with `localSeqNum` 100 known and a received
layer with ACK set, the expectation's ack-number is 100 even though the
template's ack-number was 7; with ACK clear it is the template's 7. -/
theorem c6_witness :
    (tcpState.incoming ⟨{}, { ackNum := some 7 }, some 100, none, none, false⟩
        (Layer.tcp { flags := some 16 })).bind Layer.tcpAckNum = some (some 100)
    ∧ (tcpState.incoming ⟨{}, { ackNum := some 7 }, some 100, none, none, false⟩
        (Layer.tcp { flags := some 0 })).bind Layer.tcpAckNum = some (some 7) := by
  have h1 := c6_amended_incoming_ack ⟨{}, { ackNum := some 7 }, some 100, none, none, false⟩
    { flags := some 16 } 16 rfl
  have h2 := c6_amended_incoming_ack ⟨{}, { ackNum := some 7 }, some 100, none, none, false⟩
    { flags := some 0 } 0 rfl
  exact ⟨h1.trans (by decide), h2.trans (by decide)⟩

/-- Counterexample to C9: the claim says `localSeqNum` is unset until the
first send or receive, and that an outgoing TCP layer produced before any
traffic carries no sequence number derived from connection state.  But
`newTCPState` sets `localSeqNum` at creation (to `rand.Uint32()`, here
42), and the very first `outgoing()` already carries it as the sequence
number. -/
theorem c9_counterexample :
    (newTCPState 1234 42 {} {}).localSeqNum = some 42
    ∧ tcpState.outgoing (newTCPState 1234 42 {} {})
        = Layer.tcp { srcPort := some 1234, seqNum := some 42 } := by decide

/-- C9 (amended): in a freshly created `tcpState`, `remoteSeqNum` is unset
(it is established by the first receive) while `localSeqNum` is already
set to the random initial value; an outgoing TCP layer produced before any
traffic therefore carries that initial sequence number, and an ack number
only if the caller's out template supplied one (none is derived from
connection state, since `remoteSeqNum` is unset). -/
theorem c9_amended_initial_state (localPort isn : Nat) (o i : TCP) :
    (newTCPState localPort isn o i).remoteSeqNum = none
    ∧ (newTCPState localPort isn o i).localSeqNum = some isn
    ∧ tcpState.outgoing (newTCPState localPort isn o i)
        = Layer.tcp { TCP.merge { srcPort := some localPort } o with seqNum := some isn } :=
  ⟨rfl, rfl, rfl⟩

/-! ### Frame-length and merge-failure behaviour of matching -/

theorem incomingAux_append (ss : List layerState) : ∀ (received extra : List Layer),
    ss.length ≤ received.length →
    incomingAux ss (received ++ extra) = incomingAux ss received := by
  induction ss with
  | nil => intro received extra _; rfl
  | cons s ss ih =>
    intro received extra h
    cases received with
    | nil => simp at h
    | cons l ls =>
      have h' : ss.length ≤ ls.length := by simpa using h
      cases hx : s.incomingL l with
      | none => simp [incomingAux, hx]
      | some x =>
        simp only [List.cons_append, incomingAux, hx]
        exact congrArg (Option.map fun y => x :: y) (ih ls extra h')

theorem incomingAux_length (ss : List layerState) : ∀ (received out : List Layer),
    incomingAux ss received = some out → out.length = ss.length := by
  induction ss with
  | nil =>
    intro received out h
    have h2 : some ([] : List Layer) = some out := h
    cases h2
    rfl
  | cons s ss ih =>
    intro received out h
    cases received with
    | nil => exact absurd h (by simp [incomingAux])
    | cons l ls =>
      simp only [incomingAux] at h
      cases hx : s.incomingL l with
      | none => rw [hx] at h; simp at h
      | some x =>
        rw [hx] at h
        cases hr : incomingAux ss ls with
        | none => rw [hr] at h; simp at h
        | some xs =>
          rw [hr] at h
          simp at h
          subst h
          simp [ih ls xs hr]

theorem mergeLayers_length (base : List Layer) : ∀ (ov : List (Option Layer)) (merged : List Layer),
    ov.length ≤ base.length → mergeLayers base ov = some merged →
    merged.length = base.length := by
  induction base with
  | nil =>
    intro ov merged hlen h
    have hov : ov = [] := List.length_eq_zero.mp (Nat.le_zero.mp hlen)
    subst hov
    have h2 : some ([] : List Layer) = some merged := h
    cases h2
    rfl
  | cons b bs ih =>
    intro ov merged hlen h
    cases ov with
    | nil =>
      have h2 : some (b :: bs) = some merged := h
      cases h2
      rfl
    | cons o os =>
      cases o with
      | none =>
        simp only [mergeLayers] at h
        cases hr : mergeLayers bs os with
        | none => rw [hr] at h; simp at h
        | some ms =>
          rw [hr] at h
          simp at h
          subst h
          simp [ih os ms (by simpa using hlen) hr]
      | some ol =>
        simp only [mergeLayers] at h
        cases hm : Layer.merge b ol with
        | none => rw [hm] at h; simp at h
        | some m =>
          rw [hm] at h
          cases hr : mergeLayers bs os with
          | none => rw [hr] at h; simp at h
          | some ms =>
            rw [hr] at h
            simp at h
            subst h
            simp [ih os ms (by simpa using hlen) hr]

theorem matchLayers_append (expected : List Layer) : ∀ (received extra : List Layer),
    expected.length ≤ received.length →
    matchLayers expected (received ++ extra) = matchLayers expected received := by
  induction expected with
  | nil => intro received extra _; rfl
  | cons e es ih =>
    intro received extra h
    cases received with
    | nil => simp at h
    | cons a as =>
      have h' : es.length ≤ as.length := by simpa using h
      simp only [List.cons_append, matchLayers]
      exact congrArg (fun b => Layer.matches e a && b) (ih as extra h')

/-- C2: a received frame with strictly fewer layers than the connection
has layer states yields a nil `Connection.incoming` and a false
`Connection.match`, regardless of any field values; a received frame with
at least as many layers is never rejected for its length alone — extra
trailing layers change neither the expected incoming frame nor (for an
override that does not itself extend past the layer states) the match
outcome. -/
theorem c2_frame_length_rule (conn : Connection) (received extra : List Layer)
    (override : List (Option Layer)) :
    (received.length < conn.layerStates.length →
      conn.incoming received = none ∧ conn.matchFrame override received = false)
    ∧ (conn.layerStates.length ≤ received.length →
      conn.incoming (received ++ extra) = conn.incoming received
      ∧ (override.length ≤ conn.layerStates.length →
          conn.matchFrame override (received ++ extra) = conn.matchFrame override received)) := by
  constructor
  · intro h
    constructor
    · simp [Connection.incoming, h]
    · simp [Connection.matchFrame, Connection.incoming, h]
  · intro h
    have hin : conn.incoming (received ++ extra) = conn.incoming received := by
      have h2 : conn.layerStates.length ≤ (received ++ extra).length := by
        simp only [List.length_append]
        omega
      simp only [Connection.incoming, Nat.not_lt.2 h, Nat.not_lt.2 h2, if_false]
      exact incomingAux_append conn.layerStates received extra h
    refine ⟨hin, fun hov => ?_⟩
    cases hI : conn.incoming received with
    | none => simp [Connection.matchFrame, hin, hI]
    | some toMatch =>
      have hlen : toMatch.length = conn.layerStates.length := by
        have hI2 : incomingAux conn.layerStates received = some toMatch := by
          simpa [Connection.incoming, Nat.not_lt.2 h] using hI
        exact incomingAux_length conn.layerStates received toMatch hI2
      cases hM : mergeLayers toMatch override with
      | none => simp [Connection.matchFrame, hin, hI, hM]
      | some merged =>
        have hmlen : merged.length = toMatch.length :=
          mergeLayers_length toMatch override merged (by omega) hM
        simp only [Connection.matchFrame, hin, hI, hM]
        exact matchLayers_append merged received extra (by omega)

/-- Witness for C2: a single-layer (Ethernet) connection rejects the empty
frame; a two-layer capture with a trailing TCP layer matches exactly when
the one-layer capture does, and the expected incoming frames agree. -/
theorem c2_witness :
    (Connection.incoming ⟨[layerState.ether ⟨{}, {}⟩]⟩ [] = none
      ∧ Connection.matchFrame ⟨[layerState.ether ⟨{}, {}⟩]⟩ [some (Layer.ether {})] [] = false)
    ∧ (Connection.incoming ⟨[layerState.ether ⟨{}, {}⟩]⟩ [Layer.ether {}, Layer.tcp {}]
        = Connection.incoming ⟨[layerState.ether ⟨{}, {}⟩]⟩ [Layer.ether {}]
      ∧ Connection.matchFrame ⟨[layerState.ether ⟨{}, {}⟩]⟩ [some (Layer.ether {})]
          [Layer.ether {}, Layer.tcp {}]
        = Connection.matchFrame ⟨[layerState.ether ⟨{}, {}⟩]⟩ [some (Layer.ether {})]
          [Layer.ether {}]) := by
  have h := c2_frame_length_rule ⟨[layerState.ether ⟨{}, {}⟩]⟩ [Layer.ether {}] [Layer.tcp {}]
    [some (Layer.ether {})]
  have h1 := c2_frame_length_rule ⟨[layerState.ether ⟨{}, {}⟩]⟩ [] [] [some (Layer.ether {})]
  exact ⟨h1.1 (by decide), (h.2 (by decide)).1, (h.2 (by decide)).2 (by decide)⟩

theorem mergeLast_of_merge_none (layer : Layer) : ∀ (ls : List Layer) (last : Layer),
    ls.getLast? = some last → Layer.merge last layer = none →
    mergeLast ls layer = none := by
  intro ls
  induction ls with
  | nil => intro last h _; simp at h
  | cons l ls ih =>
    intro last h hm
    cases ls with
    | nil =>
      simp only [List.getLast?_singleton, Option.some.injEq] at h
      subst h
      simp [mergeLast, hm]
    | cons l2 ls2 =>
      have h2 : (l2 :: ls2).getLast? = some last := by
        simpa [List.getLast?_cons_cons] using h
      simp [mergeLast, ih last h2 hm]

/-- C3: a failing merge of the expectation override into the expected
incoming frame (e.g. mismatched layer types) makes `Connection.match`
return false — the function is total with a `Bool` result, so no error or
abort can arise — whereas in `Connection.CreateFrame` a failing merge of
the override into the innermost outgoing layer is fatal
(`conn.t.Fatalf`, modelled as `none`). -/
theorem c3_merge_failure_no_match (conn : Connection) (override : List (Option Layer))
    (received toMatch : List Layer) (layer last : Layer) (additionalLayers : List Layer) :
    (conn.incoming received = some toMatch → mergeLayers toMatch override = none →
      conn.matchFrame override received = false)
    ∧ ((conn.layerStates.map layerState.outgoingL).getLast? = some last →
        Layer.merge last layer = none →
        conn.CreateFrame layer additionalLayers = none) := by
  constructor
  · intro hI hM
    simp [Connection.matchFrame, hI, hM]
  · intro hL hm
    simp [Connection.CreateFrame, mergeLast_of_merge_none layer _ last hL hm]

/-- Witness for C3: on a one-layer Ethernet connection, overriding the
expectation with a TCP layer is a type-mismatched merge — the match is
false, not an error — while creating a frame with a TCP override is
fatal. -/
theorem c3_witness :
    Connection.matchFrame ⟨[layerState.ether ⟨{}, {}⟩]⟩ [some (Layer.tcp {})] [Layer.ether {}] = false
    ∧ Connection.CreateFrame ⟨[layerState.ether ⟨{}, {}⟩]⟩ (Layer.tcp {}) [] = none := by
  have h := c3_merge_failure_no_match ⟨[layerState.ether ⟨{}, {}⟩]⟩ [some (Layer.tcp {})]
    [Layer.ether {}] [Layer.ether {}] (Layer.tcp {}) (Layer.ether {}) []
  exact ⟨h.1 (by decide) (by decide), h.2 (by decide) (by decide)⟩

/-! ### The `ExpectFrame` polling loop -/

theorem expectLoop_nil (conn : Connection) (layers : List (Option Layer))
    (errs : List LayersDiff) (R : Int) :
    expectLoop conn layers errs R [] = ExpectResult.timeout errs := by
  unfold expectLoop
  by_cases hR : R ≤ 0 <;> simp [hR]

/-- C8: `ExpectFrame` called with a timeout of 0 or a negative duration
returns a timeout failure immediately (with no accumulated diffs, i.e.
no frame was examined), and the result does not depend on what the
sniffer would have delivered — the sniffer's receive operation is never
invoked. -/
theorem c8_nonpositive_timeout (conn : Connection) (layers : List (Option Layer))
    (timeout : Int) (trace trace2 : List (Int × Option (List Layer)))
    (h : timeout ≤ 0) :
    conn.ExpectFrame layers timeout trace = ExpectResult.timeout []
    ∧ conn.ExpectFrame layers timeout trace = conn.ExpectFrame layers timeout trace2 := by
  have e : ∀ tr : List (Int × Option (List Layer)),
      conn.ExpectFrame layers timeout tr = ExpectResult.timeout [] := by
    intro tr
    unfold Connection.ExpectFrame expectLoop
    simp [h]
  exact ⟨e trace, (e trace).trans (e trace2).symm⟩

/-- Witness for C8: with a zero timeout and a matching frame sitting in
the sniffer, `ExpectFrame` still reports an immediate timeout. -/
theorem c8_witness :
    Connection.ExpectFrame ⟨[layerState.ether ⟨{}, {}⟩]⟩ [Option.none] 0
        [(1, some [Layer.ether {}])] = ExpectResult.timeout []
    ∧ Connection.ExpectFrame ⟨[layerState.ether ⟨{}, {}⟩]⟩ [Option.none] 0
        [(1, some [Layer.ether {}])]
      = Connection.ExpectFrame ⟨[layerState.ether ⟨{}, {}⟩]⟩ [Option.none] 0 [] :=
  c8_nonpositive_timeout ⟨[layerState.ether ⟨{}, {}⟩]⟩ [Option.none] 0
    [(1, some [Layer.ether {}])] [] (by norm_num)

/-- A sniffer trace on which every `Recv` call promptly (after one time
unit) delivers the next captured frame. -/
def mkTrace (frames : List (List Layer)) : List (Int × Option (List Layer)) :=
  frames.map (fun f => ((1 : Int), some f))

theorem expectLoop_all_nonmatching (conn : Connection) (layers : List (Option Layer)) :
    ∀ (frames : List (List Layer)) (errs : List LayersDiff) (R : Int),
    (∀ f ∈ frames, conn.matchFrame layers f = false) → (frames.length : Int) ≤ R →
    expectLoop conn layers errs R (mkTrace frames)
      = ExpectResult.timeout (errs ++ frames.map (mkDiff conn)) := by
  intro frames
  induction frames with
  | nil =>
    intro errs R _ _
    simp [mkTrace, expectLoop_nil]
  | cons g gs ih =>
    intro errs R hall hR
    have hRpos : ¬ R ≤ 0 := by
      simp only [List.length_cons] at hR
      push_cast at hR
      omega
    simp only [mkTrace, List.map_cons]
    unfold expectLoop
    rw [if_neg hRpos]
    simp only [Connection.recvFrame, if_neg hRpos]
    rw [hall g (by simp)]
    simp only [Bool.false_eq_true, if_false]
    rw [show (gs.map fun f => ((1 : Int), some f)) = mkTrace gs from rfl,
      ih (errs ++ [mkDiff conn g]) (R - 1) (fun f hf => hall f (by simp [hf]))
        (by simp only [List.length_cons] at hR; push_cast at hR ⊢; omega)]
    simp

theorem expectLoop_first_match (conn conn2 : Connection) (layers : List (Option Layer))
    (m : List Layer) :
    ∀ (pre post : List (List Layer)) (errs : List LayersDiff) (R : Int),
    (∀ f ∈ pre, conn.matchFrame layers f = false) →
    conn.matchFrame layers m = true →
    conn.updateReceivedStates m = some conn2 →
    (pre.length : Int) < R →
    expectLoop conn layers errs R (mkTrace (pre ++ m :: post))
      = ExpectResult.matched m conn2 := by
  intro pre
  induction pre with
  | nil =>
    intro post errs R _ hm hupd hR
    have hRpos : ¬ R ≤ 0 := by
      simp only [List.length_nil] at hR
      omega
    simp only [List.nil_append, mkTrace, List.map_cons]
    unfold expectLoop
    rw [if_neg hRpos]
    simp only [Connection.recvFrame, if_neg hRpos]
    rw [hm]
    simp [hupd]
  | cons g gs ih =>
    intro post errs R hall hm hupd hR
    have hRpos : ¬ R ≤ 0 := by
      simp only [List.length_cons] at hR
      push_cast at hR
      omega
    simp only [List.cons_append, mkTrace, List.map_cons]
    unfold expectLoop
    rw [if_neg hRpos]
    simp only [Connection.recvFrame, if_neg hRpos]
    rw [hall g (by simp)]
    simp only [Bool.false_eq_true, if_false]
    rw [show ((gs ++ m :: post).map fun f => ((1 : Int), some f)) = mkTrace (gs ++ m :: post)
        from rfl]
    exact ih post (errs ++ [mkDiff conn g]) (R - 1) (fun f hf => hall f (by simp [hf])) hm hupd
      (by simp only [List.length_cons] at hR; push_cast at hR ⊢; omega)

/-- C4: over a sniffer trace that delivers captured frames promptly, if no
delivered frame matches, `ExpectFrame` runs to the deadline and its
timeout failure carries one got/want diff record for every captured frame,
in arrival order; if a frame matches (the first one to do so), every layer
state is updated by `received` with its corresponding matched layer and
the matched frame is returned without error. -/
theorem c4_expectFrame_loop (conn conn2 : Connection) (layers : List (Option Layer))
    (frames pre post : List (List Layer)) (m : List Layer) (R : Int) :
    ((∀ f ∈ frames, conn.matchFrame layers f = false) → (frames.length : Int) ≤ R →
      conn.ExpectFrame layers R (mkTrace frames)
        = ExpectResult.timeout (frames.map (mkDiff conn)))
    ∧ ((∀ f ∈ pre, conn.matchFrame layers f = false) →
        conn.matchFrame layers m = true →
        conn.updateReceivedStates m = some conn2 →
        (pre.length : Int) < R →
        conn.ExpectFrame layers R (mkTrace (pre ++ m :: post))
          = ExpectResult.matched m conn2) := by
  constructor
  · intro hall hR
    unfold Connection.ExpectFrame
    rw [expectLoop_all_nonmatching conn layers frames [] R hall hR]
    simp
  · intro hall hm hupd hR
    unfold Connection.ExpectFrame
    exact expectLoop_first_match conn conn2 layers m pre post [] R hall hm hupd hR

/-- Witness for C4: on a one-layer Ethernet connection, two non-matching
captures (a TCP frame then a UDP frame) produce a timeout carrying both
diffs in order; a non-matching TCP capture followed by a matching Ethernet
capture produces a match returning the Ethernet frame with the states
updated (`received` is a no-op for the Ethernet state). -/
theorem c4_witness :
    Connection.ExpectFrame ⟨[layerState.ether ⟨{}, {}⟩]⟩ [Option.none] 10
        (mkTrace [[Layer.tcp {}], [Layer.udp {}]])
      = ExpectResult.timeout
          [mkDiff ⟨[layerState.ether ⟨{}, {}⟩]⟩ [Layer.tcp {}],
           mkDiff ⟨[layerState.ether ⟨{}, {}⟩]⟩ [Layer.udp {}]]
    ∧ Connection.ExpectFrame ⟨[layerState.ether ⟨{}, {}⟩]⟩ [Option.none] 10
        (mkTrace [[Layer.tcp {}], [Layer.ether {}]])
      = ExpectResult.matched [Layer.ether {}] ⟨[layerState.ether ⟨{}, {}⟩]⟩ := by
  have h := c4_expectFrame_loop ⟨[layerState.ether ⟨{}, {}⟩]⟩ ⟨[layerState.ether ⟨{}, {}⟩]⟩
    [Option.none] [[Layer.tcp {}], [Layer.udp {}]] [[Layer.tcp {}]] [] [Layer.ether {}] 10
  exact ⟨h.1 (by decide) (by norm_num), h.2 (by decide) (by decide) (by decide) (by norm_num)⟩

/-! ### The TCP three-way handshake -/

/-- C5: after a successful `TCPIPv4.Handshake` — send a SYN-only frame,
receive within the 1-second window a frame whose TCP layer carries
SYN and ACK (stored as `synAck`), send an ACK-only frame — the local
sequence number has advanced from `x` to `x + 1` (mod 2^32) and the
remote sequence number equals the captured SYN-ACK's sequence number
plus 1 (mod 2^32).  The SYN-ACK frame here carries no trailing payload
(its nested-layer chain is empty), as in the claim's scenario. -/
theorem c5_handshake_seqnums (es ies : Ether) (i4o i4i : IPv4) (o ti : TCP) (x : Nat)
    (r0 : Option Nat) (sa : Option TCP) (fin0 : Bool) (f0 : Ether) (f1 : IPv4) (t : TCP)
    (sn : Nat) (d : Int) (conn2 : Connection)
    (hsn : t.seqNum = some sn) (hfl : t.flags = some (TCPFlagSyn ||| TCPFlagAck))
    (hsucc : TCPIPv4.Handshake
        ⟨[layerState.ether ⟨es, ies⟩, layerState.ipv4 ⟨i4o, i4i⟩,
          layerState.tcp ⟨o, ti, some x, r0, sa, fin0⟩]⟩
        [(d, some [Layer.ether f0, Layer.ipv4 f1, Layer.tcp t])] = some conn2) :
    conn2.lastTCPState.map tcpState.localSeqNum = some (some ((x + 1) % 2 ^ 32))
    ∧ conn2.lastTCPState.map tcpState.remoteSeqNum = some (some ((sn + 1) % 2 ^ 32))
    ∧ conn2.lastTCPState.map tcpState.synAck = some (some t) := by
  have hb2 : (TCPFlagSyn &&& (TCPFlagSyn ||| TCPFlagFin) != 0) = true := by decide
  have hb2fin : (TCPFlagSyn &&& TCPFlagFin != 0) = false := by decide
  have hbAck : (TCPFlagAck &&& (TCPFlagSyn ||| TCPFlagFin) != 0) = false := by decide
  have hbAckfin : (TCPFlagAck &&& TCPFlagFin != 0) = false := by decide
  have hb18 : ((TCPFlagSyn ||| TCPFlagAck) &&& (TCPFlagSyn ||| TCPFlagFin) != 0) = true := by
    decide
  have h1000 : ¬ ((1000 : Int) ≤ 0) := by norm_num
  have hrep : List.replicate 2 (Option.none : Option Layer) = [Option.none, Option.none] := rfl
  have hget : [Layer.ether f0, Layer.ipv4 f1, Layer.tcp t].get? 2 = some (Layer.tcp t) := rfl
  have hsend1 : Connection.Send
      ⟨[layerState.ether ⟨es, ies⟩, layerState.ipv4 ⟨i4o, i4i⟩,
        layerState.tcp ⟨o, ti, some x, r0, sa, fin0⟩]⟩
      (Layer.tcp { flags := some TCPFlagSyn }) []
      = some ⟨[layerState.ether ⟨es, ies⟩, layerState.ipv4 ⟨i4o, i4i⟩,
        layerState.tcp ⟨o, ti, some ((x + 1) % 4294967296), r0, sa, fin0⟩]⟩ := by
    simp [Connection.Send, Connection.CreateFrame, mergeLast, layerState.outgoingL,
      tcpState.outgoing, Layer.merge, TCP.merge, optMerge, Connection.SendFrame, sentStates,
      layerState.sentL, tcpState.sent, advancePayload, advanceSeq, updateForward, hb2, hb2fin]
  cases hmatch : Connection.matchFrame
      ⟨[layerState.ether ⟨es, ies⟩, layerState.ipv4 ⟨i4o, i4i⟩,
        layerState.tcp ⟨o, ti, some ((x + 1) % 4294967296), r0, sa, fin0⟩]⟩
      [Option.none, Option.none, some (Layer.tcp { flags := some (TCPFlagSyn ||| TCPFlagAck) })]
      [Layer.ether f0, Layer.ipv4 f1, Layer.tcp t] with
  | false =>
    have hexpect : Connection.Expect
        ⟨[layerState.ether ⟨es, ies⟩, layerState.ipv4 ⟨i4o, i4i⟩,
          layerState.tcp ⟨o, ti, some ((x + 1) % 4294967296), r0, sa, fin0⟩]⟩
        (Layer.tcp { flags := some (TCPFlagSyn ||| TCPFlagAck) }) 1000
        [(d, some [Layer.ether f0, Layer.ipv4 f1, Layer.tcp t])] = none := by
      unfold Connection.Expect
      simp [Connection.ExpectFrame, expectLoop, Connection.recvFrame, h1000, hrep, hmatch,
        expectLoop_nil]
    simp only [TCPIPv4.Handshake, hsend1, hexpect] at hsucc
    exact Option.noConfusion hsucc
  | true =>
    have hupd : Connection.updateReceivedStates
        ⟨[layerState.ether ⟨es, ies⟩, layerState.ipv4 ⟨i4o, i4i⟩,
          layerState.tcp ⟨o, ti, some ((x + 1) % 4294967296), r0, sa, fin0⟩]⟩
        [Layer.ether f0, Layer.ipv4 f1, Layer.tcp t]
        = some ⟨[layerState.ether ⟨es, ies⟩, layerState.ipv4 ⟨i4o, i4i⟩,
          layerState.tcp ⟨o, ti, some ((x + 1) % 4294967296), some ((sn + 1) % 4294967296), sa,
            fin0⟩]⟩ := by
      simp [Connection.updateReceivedStates, receivedStates, layerState.receivedL,
        tcpState.received, hsn, hfl, hb18, advanceBy, updateForward]
    have hexpect : Connection.Expect
        ⟨[layerState.ether ⟨es, ies⟩, layerState.ipv4 ⟨i4o, i4i⟩,
          layerState.tcp ⟨o, ti, some ((x + 1) % 4294967296), r0, sa, fin0⟩]⟩
        (Layer.tcp { flags := some (TCPFlagSyn ||| TCPFlagAck) }) 1000
        [(d, some [Layer.ether f0, Layer.ipv4 f1, Layer.tcp t])]
        = some (Layer.tcp t,
            ⟨[layerState.ether ⟨es, ies⟩, layerState.ipv4 ⟨i4o, i4i⟩,
              layerState.tcp ⟨o, ti, some ((x + 1) % 4294967296), some ((sn + 1) % 4294967296), sa,
                fin0⟩]⟩) := by
      unfold Connection.Expect
      simp [Connection.ExpectFrame, expectLoop, Connection.recvFrame, h1000, hrep, hmatch,
        hupd, hget]
    have hset : Connection.setSynAck
        ⟨[layerState.ether ⟨es, ies⟩, layerState.ipv4 ⟨i4o, i4i⟩,
          layerState.tcp ⟨o, ti, some ((x + 1) % 4294967296), some ((sn + 1) % 4294967296), sa, fin0⟩]⟩ t
        = some ⟨[layerState.ether ⟨es, ies⟩, layerState.ipv4 ⟨i4o, i4i⟩,
          layerState.tcp ⟨o, ti, some ((x + 1) % 4294967296), some ((sn + 1) % 4294967296), some t,
            fin0⟩]⟩ := by
      simp [Connection.setSynAck, setSynAckStates]
    have hsend3 : Connection.Send
        ⟨[layerState.ether ⟨es, ies⟩, layerState.ipv4 ⟨i4o, i4i⟩,
          layerState.tcp ⟨o, ti, some ((x + 1) % 4294967296), some ((sn + 1) % 4294967296), some t,
            fin0⟩]⟩
        (Layer.tcp { flags := some TCPFlagAck }) []
        = some ⟨[layerState.ether ⟨es, ies⟩, layerState.ipv4 ⟨i4o, i4i⟩,
          layerState.tcp ⟨o, ti, some ((x + 1) % 4294967296), some ((sn + 1) % 4294967296), some t,
            fin0⟩]⟩ := by
      simp [Connection.Send, Connection.CreateFrame, mergeLast, layerState.outgoingL,
        tcpState.outgoing, Layer.merge, TCP.merge, optMerge, Connection.SendFrame, sentStates,
        layerState.sentL, tcpState.sent, advancePayload, advanceSeq, updateForward, hbAck,
        hbAckfin]
    simp only [TCPIPv4.Handshake, hsend1, hexpect, hset, hsend3, Option.some.injEq] at hsucc
    subst hsucc
    simp [Connection.lastTCPState, lastTCP]

/-- The SYN-ACK segment of the concrete handshake run used as the C5
witness: sequence number 200, acknowledging the testbench's 100 + 1. -/
def c5SynAck : TCP :=
  { dstPort := some 1, seqNum := some 200, ackNum := some 101, flags := some 18 }

/-- The connection state after the concrete C5 handshake run. -/
def c5After : Connection :=
  ⟨[layerState.ether ⟨{}, {}⟩, layerState.ipv4 ⟨{}, {}⟩,
    layerState.tcp ⟨{ srcPort := some 1 }, { dstPort := some 1 }, some 101, some 201,
      some c5SynAck, false⟩]⟩

/-- Witness for C5: a concrete handshake (initial local sequence number
100, SYN-ACK with sequence number 200) succeeds and leaves the local
sequence number at 101, the remote sequence number at 201 and the
captured SYN-ACK stored. -/
theorem c5_witness :
    TCPIPv4.Handshake
        ⟨[layerState.ether ⟨{}, {}⟩, layerState.ipv4 ⟨{}, {}⟩,
          layerState.tcp ⟨{ srcPort := some 1 }, { dstPort := some 1 }, some 100, none, none,
            false⟩]⟩
        [(1, some [Layer.ether {}, Layer.ipv4 {}, Layer.tcp c5SynAck])] = some c5After
    ∧ c5After.lastTCPState.map tcpState.localSeqNum = some (some 101)
    ∧ c5After.lastTCPState.map tcpState.remoteSeqNum = some (some 201)
    ∧ c5After.lastTCPState.map tcpState.synAck = some (some c5SynAck) := by
  have h := c5_handshake_seqnums {} {} {} {} { srcPort := some 1 } { dstPort := some 1 } 100
    none none false {} {} c5SynAck 200 1 c5After (by decide) (by decide) (by decide)
  exact ⟨by decide, h.1.trans (by decide), h.2.1.trans (by decide), h.2.2⟩

end PacketImpact
